import Mathlib

/-!
Shallow embedding of the DNS client cache (`src/client.py`): the record
table `RRTable` with its TTL decay tick, the lookup path `get_record`,
the type registry `DNSTypes`, and the resolution routine `handle_request`.
Machine integers of the source are modelled as `Nat`/`Int`; the absent
TTL (`None` in the source) is `Option.none`; the network receive is an
abstract outcome parameter.
-/

set_option autoImplicit false

namespace DnsSim

/-- Constant `QUERY_FLAG` of the source. -/
def QUERY_FLAG : String := "0000"

/-- Constant `RESP_FLAG` of the source. -/
def RESP_FLAG : String := "0001"

/-- Constant `NOT_FOUND` of the source: the negative-answer sentinel. -/
def NOT_FOUND : String := "Record not found"

/-- One cached record as stored by `RRTable` (a Python dict in the source). -/
structure Record where
  record_number : Nat
  name : String
  rtype : String
  result : String
  ttl : Option Int
  static : Nat
  deriving Repr, DecidableEq

/-- The mutable state of `RRTable`: the record list and the insert counter
(`self.record_number` in the source). -/
structure RRTable where
  records : List Record
  record_number : Nat
  deriving Repr, DecidableEq

/-- `RRTable.__init__`: empty record list, counter 0. -/
def RRTable.init : RRTable := { records := [], record_number := 0 }

/-- `RRTable.add_record`: append a record numbered with the running counter;
the stored ttl is the given ttl for `static = 0` and `None` otherwise. -/
def RRTable.add_record (t : RRTable) (name rtype result : String) (ttl : Int)
    (static : Nat) : RRTable :=
  { records := t.records ++
      [{ record_number := t.record_number, name := name, rtype := rtype,
         result := result, ttl := if static = 0 then some ttl else none,
         static := static }],
    record_number := t.record_number + 1 }

/-- `rec["ttl"] is not None and rec["ttl"] > 0` of the source. -/
def ttlPos : Option Int → Bool
  | some n => decide (0 < n)
  | none => false

/-- The scan loop of `RRTable.get_record`: first record matching name and
type whose static flag is 1 or whose ttl is present and positive; a
matching record failing that test is skipped and the scan continues. -/
def get_record_scan : List Record → String → String → Option Record
  | [], _, _ => none
  | rec :: rest, name, rtype =>
    if rec.name = name ∧ rec.rtype = rtype then
      (if rec.static = 1 ∨ ttlPos rec.ttl = true then some rec
       else get_record_scan rest name rtype)
    else get_record_scan rest name rtype

/-- `RRTable.get_record`. -/
def RRTable.get_record (t : RRTable) (name rtype : String) : Option Record :=
  get_record_scan t.records name rtype

/-- The per-record body of the decrement loop in `RRTable.__decrement_ttl`:
decrement the ttl when `static == 0 and ttl is not None and ttl > 0`. -/
def decTtlRec (rec : Record) : Record :=
  match rec.ttl with
  | some n => if rec.static = 0 ∧ 0 < n then { rec with ttl := some (n - 1) } else rec
  | none => rec

/-- The decrement loop of `RRTable.__decrement_ttl` over the whole list. -/
def decTtlPass : List Record → List Record
  | [] => []
  | rec :: rest => decTtlRec rec :: decTtlPass rest

/-- The removal test of `RRTable.__remove_expired_records`:
`static == 0 and ttl is not None and ttl <= 0`. -/
def isExpiredDyn (rec : Record) : Bool :=
  decide (rec.static = 0) &&
    (match rec.ttl with | some n => decide (n ≤ 0) | none => false)

/-- The `kept` loop of `RRTable.__remove_expired_records`. -/
def keepPass : List Record → List Record
  | [] => []
  | rec :: rest =>
    if isExpiredDyn rec = true then keepPass rest else rec :: keepPass rest

/-- The renumbering loop of `RRTable.__remove_expired_records`
(`for i, rec in enumerate(self.records): rec["record_number"] = i`). -/
def renumberFrom : Nat → List Record → List Record
  | _, [] => []
  | i, rec :: rest => { rec with record_number := i } :: renumberFrom (i + 1) rest

/-- `RRTable.__remove_expired_records`: filter out expired dynamic records,
renumber the survivors densely from 0, set the counter to their count. -/
def RRTable.remove_expired_records (t : RRTable) : RRTable :=
  { records := renumberFrom 0 (keepPass t.records),
    record_number := (renumberFrom 0 (keepPass t.records)).length }

/-- One iteration of the background loop in `RRTable.__decrement_ttl`
(one decay tick): decrement pass, then `__remove_expired_records`. -/
def RRTable.decay_tick (t : RRTable) : RRTable :=
  RRTable.remove_expired_records
    { records := decTtlPass t.records, record_number := t.record_number }

/-- Rendering of a ttl cell in `RRTable.display_table`. -/
def ttlStr : Option Int → String
  | none => "None"
  | some n => toString n

/-- One data row printed by `RRTable.display_table`. -/
def displayRow (rec : Record) : String :=
  toString rec.record_number ++ "," ++ rec.name ++ "," ++ rec.rtype ++ ","
    ++ rec.result ++ "," ++ ttlStr rec.ttl ++ "," ++ toString rec.static

/-- `RRTable.display_table`: the printed lines, header first, one row per
record in storage order. The table state is read under the lock and not
modified. -/
def RRTable.display_table (t : RRTable) : List String :=
  "record_no,name,type,result,ttl,static" :: t.records.map displayRow

/-- `DNSTypes.name_to_code` as an association list in insertion order. -/
def name_to_code : List (String × Nat) :=
  [("A", 8), ("AAAA", 4), ("CNAME", 2), ("NS", 1)]

/-- `DNSTypes.code_to_name`: the inverted dictionary. -/
def code_to_name : List (Nat × String) :=
  name_to_code.map (fun p => (p.2, p.1))

/-- `DNSTypes.get_type_code`: dictionary lookup, `None` when absent. -/
def get_type_code (type_name : String) : Option Nat :=
  (name_to_code.find? (fun p => p.1 == type_name)).map (fun p => p.2)

/-- `DNSTypes.get_type_name`: dictionary lookup, `None` when absent. -/
def get_type_name (type_code : Nat) : Option String :=
  (code_to_name.find? (fun p => p.1 == type_code)).map (fun p => p.2)

/-- The `answer` object of a decoded response; every field is optional
because the source reads each with `dict.get`. -/
structure AnswerMsg where
  aname : Option String
  atype : Option String
  result : Option String
  ttl : Option Int
  deriving Repr, DecidableEq

/-- A decoded response dict: `id`, `flag` and `answer` are read with
`dict.get` and may be absent. -/
structure RespMsg where
  rid : Option Nat
  flag : Option String
  answer : Option AnswerMsg
  deriving Repr, DecidableEq

/-- Outcome of the receive-and-decode phase of `handle_request`:
`recvError` models `udp.receive_message()` raising (timeout or socket
error, the caught branch), `decodeError` models `deserialize` raising on
malformed data (which propagates), and `decoded none` models a decoded
value that is not a dict. -/
inductive RecvOutcome where
  | recvError
  | decodeError
  | decoded (resp : Option RespMsg)
  deriving Repr, DecidableEq

/-- What a `handle_request` call leaves behind: the table state and
whether `display_table` was invoked before returning. -/
structure HandleResult where
  table : RRTable
  displayed : Bool
  deriving Repr, DecidableEq

/-- The empty dict default of `resp.get("answer", {})`. -/
def emptyAnswer : AnswerMsg :=
  { aname := none, atype := none, result := none, ttl := none }

/-- `handle_request` of the source, with the transaction id and the
receive outcome as parameters: check the cache, on a hit display and
return; otherwise on a failed receive, a failed decode, a non-dict reply,
or an id/flag mismatch return without displaying; otherwise read the
answer with its `dict.get` defaults, insert a dynamic record unless the
result is the `NOT_FOUND` sentinel, and display. -/
def handle_request (rr : RRTable) (hostname qtype_name : String) (tx_id : Nat)
    (recv : RecvOutcome) : HandleResult :=
  if (rr.get_record hostname qtype_name).isSome = true then
    { table := rr, displayed := true }
  else
    match recv with
    | RecvOutcome.recvError => { table := rr, displayed := false }
    | RecvOutcome.decodeError => { table := rr, displayed := false }
    | RecvOutcome.decoded none => { table := rr, displayed := false }
    | RecvOutcome.decoded (some resp) =>
      if resp.rid ≠ some tx_id ∨ resp.flag ≠ some RESP_FLAG then
        { table := rr, displayed := false }
      else
        if (resp.answer.getD emptyAnswer).result.getD NOT_FOUND ≠ NOT_FOUND then
          { table := rr.add_record
              ((resp.answer.getD emptyAnswer).aname.getD hostname)
              ((resp.answer.getD emptyAnswer).atype.getD qtype_name)
              ((resp.answer.getD emptyAnswer).result.getD NOT_FOUND)
              ((resp.answer.getD emptyAnswer).ttl.getD 60) 0,
            displayed := true }
        else { table := rr, displayed := true }

/-! Spec-side definitions, written from the specification's words, to be
compared with the source embedding above. -/

/-- Spec §3 invariant: a record is valid for lookup iff it is static or
its remaining ttl is present and strictly positive. -/
def validForLookup (rec : Record) : Bool :=
  decide (rec.static = 1) || (rec.ttl.isSome && decide (0 < rec.ttl.getD 0))

/-- Spec §4.2, decay step 1 as worded: decrement the ttl by 1 for every
non-static record whose ttl is present and strictly positive. -/
def specTickDecrement (rec : Record) : Record :=
  if rec.static = 0 ∧ rec.ttl.isSome = true ∧ 0 < rec.ttl.getD 0 then
    { rec with ttl := some (rec.ttl.getD 0 - 1) }
  else rec

/-- Spec §4.2, decay step 2 as worded: remove every non-static record
whose ttl is present and at most 0. -/
def specShouldRemove (rec : Record) : Bool :=
  decide (rec.static = 0) && rec.ttl.isSome && decide (rec.ttl.getD 0 ≤ 0)

/-- A record with its display number erased: the identity-relevant data
that renumbering must preserve. -/
structure RecordCore where
  name : String
  rtype : String
  result : String
  ttl : Option Int
  static : Nat
  deriving Repr, DecidableEq

/-- Forget the `record_number` field. -/
def recCore (rec : Record) : RecordCore :=
  { name := rec.name, rtype := rec.rtype, result := rec.result,
    ttl := rec.ttl, static := rec.static }

/-- Density invariant of the table: the insert counter equals the record
count and the record stored at position `i` carries number `i`. -/
def tableInv (t : RRTable) : Prop :=
  t.record_number = t.records.length ∧
  ∀ i rec, t.records.get? i = some rec → rec.record_number = i

/-! Helper lemmas relating the loop-shaped source embedding to list
combinators. -/

theorem decTtlRec_eq_spec (rec : Record) : decTtlRec rec = specTickDecrement rec := by
  cases h : rec.ttl <;> simp [decTtlRec, specTickDecrement, h]

theorem decTtlPass_eq_map (l : List Record) :
    decTtlPass l = l.map specTickDecrement := by
  induction l with
  | nil => rfl
  | cons r rest ih => simp [decTtlPass, ih, decTtlRec_eq_spec]

theorem isExpiredDyn_eq_spec (rec : Record) :
    isExpiredDyn rec = specShouldRemove rec := by
  cases h : rec.ttl <;> simp [isExpiredDyn, specShouldRemove, h]

theorem keepPass_eq_filter (l : List Record) :
    keepPass l = l.filter (fun rec => !specShouldRemove rec) := by
  induction l with
  | nil => rfl
  | cons r rest ih =>
    by_cases hb : isExpiredDyn r = true <;>
      simp_all [keepPass, List.filter_cons, isExpiredDyn_eq_spec]

theorem renumberFrom_length (k : Nat) (l : List Record) :
    (renumberFrom k l).length = l.length := by
  induction l generalizing k with
  | nil => rfl
  | cons r rest ih => simp [renumberFrom, ih]

theorem renumberFrom_get? (k : Nat) (l : List Record) (i : Nat) :
    (renumberFrom k l).get? i =
      (l.get? i).map (fun rec => { rec with record_number := k + i }) := by
  induction l generalizing k i with
  | nil => simp [renumberFrom]
  | cons r rest ih =>
    cases i with
    | zero => simp [renumberFrom]
    | succ j =>
      have h : k + 1 + j = k + (j + 1) := by omega
      simp only [renumberFrom, List.get?_cons_succ, ih (k + 1) j, h]

theorem map_recCore_renumberFrom (k : Nat) (l : List Record) :
    (renumberFrom k l).map recCore = l.map recCore := by
  induction l generalizing k with
  | nil => rfl
  | cons r rest ih => simp [renumberFrom, recCore, ih]

theorem mem_renumberFrom (k : Nat) (l : List Record) (rec : Record)
    (h : rec ∈ renumberFrom k l) : ∃ s ∈ l, recCore rec = recCore s := by
  induction l generalizing k with
  | nil => simp [renumberFrom] at h
  | cons r rest ih =>
    simp only [renumberFrom, List.mem_cons] at h
    rcases h with h | h
    · exact ⟨r, List.mem_cons_self r rest, by simp [h, recCore]⟩
    · rcases ih (k + 1) h with ⟨s, hs, hcore⟩
      exact ⟨s, List.mem_cons_of_mem r hs, hcore⟩

/-- The pipeline shape of one decay tick: the source's loops equal
spec-worded map, filter and renumbering. -/
theorem decay_tick_pipeline (t : RRTable) :
    (t.decay_tick).records =
      renumberFrom 0
        ((t.records.map specTickDecrement).filter (fun rec => !specShouldRemove rec)) ∧
    (t.decay_tick).record_number =
      ((t.records.map specTickDecrement).filter (fun rec => !specShouldRemove rec)).length := by
  unfold RRTable.decay_tick RRTable.remove_expired_records
  simp [decTtlPass_eq_map, keepPass_eq_filter, renumberFrom_length]

theorem valid_iff (rec : Record) :
    (rec.static = 1 ∨ ttlPos rec.ttl = true) ↔ validForLookup rec = true := by
  cases h : rec.ttl <;> simp [ttlPos, validForLookup, h]

theorem get_record_scan_eq_find? (l : List Record) (name rtype : String) :
    get_record_scan l name rtype =
      l.find? (fun rec =>
        decide (rec.name = name) && decide (rec.rtype = rtype) && validForLookup rec) := by
  induction l with
  | nil => rfl
  | cons r rest ih =>
    by_cases h1 : r.name = name
    · by_cases h2 : r.rtype = rtype
      · by_cases h3 : r.static = 1 ∨ ttlPos r.ttl = true
        · have hv : validForLookup r = true := (valid_iff r).mp h3
          simp [get_record_scan, h1, h2, h3, List.find?, hv]
        · have hv : validForLookup r = false :=
            Bool.eq_false_iff.mpr (fun hc => h3 ((valid_iff r).mpr hc))
          simp [get_record_scan, h1, h2, h3, List.find?, hv, ih]
      · simp [get_record_scan, h1, h2, List.find?, ih]
    · simp [get_record_scan, h1, List.find?, ih]

/-- C1: one decay tick first decrements the ttl of every non-static
record with present positive ttl by exactly 1, then removes exactly the
non-static records with present ttl at most 0, then renumbers the
survivors to their dense 0-based position in storage order and sets the
insert counter to the surviving count; static records and records with
absent ttl are neither decremented nor removed. -/
theorem C1_decay_tick_steps (t : RRTable) :
    (∀ i : Nat, (t.decay_tick).records.get? i =
        ((((t.records.map specTickDecrement).filter
            (fun rec => !specShouldRemove rec)).get? i).map
          (fun rec => { rec with record_number := i }))) ∧
    (t.decay_tick).record_number =
      ((t.records.map specTickDecrement).filter
        (fun rec => !specShouldRemove rec)).length ∧
    ∀ rec ∈ t.records, rec.static ≠ 0 ∨ rec.ttl = none →
      decTtlRec rec = rec ∧ isExpiredDyn rec = false := by
  refine ⟨?_, (decay_tick_pipeline t).2, ?_⟩
  · intro i
    rw [(decay_tick_pipeline t).1, renumberFrom_get?]
    simp
  · intro rec _ hcase
    rcases hcase with h | h
    · refine ⟨?_, by simp [isExpiredDyn, h]⟩
      cases hl : rec.ttl <;> simp [decTtlRec, hl, h]
    · exact ⟨by simp [decTtlRec, h], by simp [isExpiredDyn, h]⟩

/-- C1 witness: on a mixed concrete table, the tick leaves the static
record and the absent-ttl dynamic record untouched. -/
theorem C1_decay_tick_steps_witness :
    decTtlRec { record_number := 0, name := "b.com", rtype := "NS",
                result := "ns1.b.com", ttl := none, static := 1 } =
      { record_number := 0, name := "b.com", rtype := "NS",
        result := "ns1.b.com", ttl := none, static := 1 } ∧
    isExpiredDyn { record_number := 0, name := "b.com", rtype := "NS",
                   result := "ns1.b.com", ttl := none, static := 1 } = false :=
  (C1_decay_tick_steps
      { records := [{ record_number := 0, name := "b.com", rtype := "NS",
                      result := "ns1.b.com", ttl := none, static := 1 }],
        record_number := 1 }).2.2
    { record_number := 0, name := "b.com", rtype := "NS",
      result := "ns1.b.com", ttl := none, static := 1 }
    (by simp) (Or.inl (by decide))

/-- C2: get_record returns the first record in storage order matching the
name and type that is valid for lookup (static, or present strictly
positive ttl); matching but invalid records are skipped, and it returns
none exactly when no matching valid record exists. -/
theorem C2_get_record_first_valid (t : RRTable) (name rtype : String) :
    t.get_record name rtype =
      t.records.find? (fun rec =>
        decide (rec.name = name) && decide (rec.rtype = rtype) && validForLookup rec) ∧
    (t.get_record name rtype = none ↔
      ∀ rec ∈ t.records, rec.name = name → rec.rtype = rtype →
        validForLookup rec = false) := by
  refine ⟨get_record_scan_eq_find? t.records name rtype, ?_⟩
  rw [RRTable.get_record, get_record_scan_eq_find?, List.find?_eq_none]
  constructor
  · intro h rec hm hn hr
    have hrec := h rec hm
    simp only [Bool.and_eq_true, decide_eq_true_eq, not_and] at hrec
    exact Bool.eq_false_iff.mpr (hrec ⟨hn, hr⟩)
  · intro h rec hm
    simp only [Bool.and_eq_true, decide_eq_true_eq, not_and]
    intro hn hr
    rw [h rec hm hn.1 hn.2] at hr
    exact Bool.false_ne_true hr

/-- Unfolding of `handle_request` on a cache miss with a decoded dict
reply: the correlation check, then the sentinel check and insert. -/
theorem handle_request_decoded_some (rr : RRTable) (hostname qtype_name : String)
    (tx_id : Nat) (resp : RespMsg)
    (hmiss : rr.get_record hostname qtype_name = none) :
    handle_request rr hostname qtype_name tx_id (RecvOutcome.decoded (some resp)) =
      if resp.rid ≠ some tx_id ∨ resp.flag ≠ some RESP_FLAG then
        { table := rr, displayed := false }
      else
        if (resp.answer.getD emptyAnswer).result.getD NOT_FOUND ≠ NOT_FOUND then
          { table := rr.add_record
              ((resp.answer.getD emptyAnswer).aname.getD hostname)
              ((resp.answer.getD emptyAnswer).atype.getD qtype_name)
              ((resp.answer.getD emptyAnswer).result.getD NOT_FOUND)
              ((resp.answer.getD emptyAnswer).ttl.getD 60) 0,
            displayed := true }
        else { table := rr, displayed := true } := by
  rw [handle_request, if_neg (by simp [hmiss])]

/-- C3: on a cache miss, the cache is unchanged whenever the receive
raises (timeout or socket error), the decode raises, the decoded reply is
not a dict, or the reply's id or flag does not match; in particular a
response with a non-matching id is never installed. -/
theorem C3_failure_paths_no_mutation (rr : RRTable) (hostname qtype_name : String)
    (tx_id : Nat) (recv : RecvOutcome)
    (hmiss : rr.get_record hostname qtype_name = none)
    (hfail : recv = RecvOutcome.recvError ∨ recv = RecvOutcome.decodeError ∨
      recv = RecvOutcome.decoded none ∨
      ∃ resp, recv = RecvOutcome.decoded (some resp) ∧
        (resp.rid ≠ some tx_id ∨ resp.flag ≠ some RESP_FLAG)) :
    (handle_request rr hostname qtype_name tx_id recv).table = rr := by
  rcases hfail with h | h | h | ⟨resp, h, hmm⟩ <;> subst h
  · simp [handle_request, hmiss]
  · simp [handle_request, hmiss]
  · simp [handle_request, hmiss]
  · rw [handle_request_decoded_some rr hostname qtype_name tx_id resp hmiss,
      if_pos hmm]

/-- C3 witness: a timed-out receive on an empty cache leaves it unchanged. -/
theorem C3_failure_paths_no_mutation_witness :
    (handle_request RRTable.init "c.com" "A" 1 RecvOutcome.recvError).table =
      RRTable.init :=
  C3_failure_paths_no_mutation RRTable.init "c.com" "A" 1 RecvOutcome.recvError
    rfl (Or.inl rfl)

/-- C4: on a cache miss, a correctly correlated response with the
sentinel result inserts nothing; with a non-sentinel result it appends
exactly one dynamic record carrying the answer's name, type and result
and the answer's ttl, defaulting to 60 when the answer has no ttl. -/
theorem C4_correlated_insert (rr : RRTable) (hostname qtype_name : String)
    (tx_id : Nat) (resp : RespMsg)
    (hmiss : rr.get_record hostname qtype_name = none)
    (hid : resp.rid = some tx_id) (hflag : resp.flag = some RESP_FLAG) :
    ((resp.answer.getD emptyAnswer).result.getD NOT_FOUND = NOT_FOUND →
      (handle_request rr hostname qtype_name tx_id
        (RecvOutcome.decoded (some resp))).table = rr) ∧
    ∀ a n ty res, resp.answer = some a → a.aname = some n → a.atype = some ty →
      a.result = some res → res ≠ NOT_FOUND →
      (handle_request rr hostname qtype_name tx_id
          (RecvOutcome.decoded (some resp))).table.records =
        rr.records ++ [{ record_number := rr.record_number, name := n, rtype := ty,
                         result := res, ttl := some (a.ttl.getD 60), static := 0 }] ∧
      (handle_request rr hostname qtype_name tx_id
          (RecvOutcome.decoded (some resp))).table.record_number =
        rr.record_number + 1 := by
  have hc1 : ¬(resp.rid ≠ some tx_id ∨ resp.flag ≠ some RESP_FLAG) := by
    simp [hid, hflag]
  constructor
  · intro hres
    rw [handle_request_decoded_some rr hostname qtype_name tx_id resp hmiss,
      if_neg hc1, if_neg (by simp [hres])]
  · intro a n ty res ha hn hty hres hne
    have hgd : resp.answer.getD emptyAnswer = a := by rw [ha]; rfl
    have hres2 : (resp.answer.getD emptyAnswer).result.getD NOT_FOUND = res := by
      rw [hgd, hres]; rfl
    rw [handle_request_decoded_some rr hostname qtype_name tx_id resp hmiss,
      if_neg hc1, if_pos (by rw [hres2]; exact hne)]
    constructor
    · simp [RRTable.add_record, hgd, hn, hty, hres2, hres]
    · simp [RRTable.add_record]

/-- C4 witness: a correlated answer for e.com with ttl 5 appends exactly
one dynamic record with ttl 5. -/
theorem C4_correlated_insert_witness :
    (handle_request RRTable.init "e.com" "A" 7
        (RecvOutcome.decoded (some
          { rid := some 7, flag := some RESP_FLAG,
            answer := some { aname := some "e.com", atype := some "A",
                             result := some "93.184.216.34",
                             ttl := some 5 } }))).table.records =
      RRTable.init.records ++
        [{ record_number := RRTable.init.record_number, name := "e.com",
           rtype := "A", result := "93.184.216.34", ttl := some 5,
           static := 0 }] :=
  ((C4_correlated_insert RRTable.init "e.com" "A" 7
      { rid := some 7, flag := some RESP_FLAG,
        answer := some { aname := some "e.com", atype := some "A",
                         result := some "93.184.216.34", ttl := some 5 } }
      rfl rfl rfl).2
    { aname := some "e.com", atype := some "A",
      result := some "93.184.216.34", ttl := some 5 }
    "e.com" "A" "93.184.216.34" rfl rfl rfl rfl (by decide)).1

/-- C10: on a cache miss, a correlated reply that lacks an answer object
or whose answer lacks a result field defaults the result to the sentinel
and is treated as a negative answer: the cache is unchanged and the call
completes normally, displaying the table. -/
theorem C10_missing_answer_negative (rr : RRTable) (hostname qtype_name : String)
    (tx_id : Nat) (resp : RespMsg)
    (hmiss : rr.get_record hostname qtype_name = none)
    (hid : resp.rid = some tx_id) (hflag : resp.flag = some RESP_FLAG)
    (hans : resp.answer = none ∨ ∃ a, resp.answer = some a ∧ a.result = none) :
    (handle_request rr hostname qtype_name tx_id
        (RecvOutcome.decoded (some resp))).table = rr ∧
    (handle_request rr hostname qtype_name tx_id
        (RecvOutcome.decoded (some resp))).displayed = true := by
  have hc1 : ¬(resp.rid ≠ some tx_id ∨ resp.flag ≠ some RESP_FLAG) := by
    simp [hid, hflag]
  have hres : (resp.answer.getD emptyAnswer).result.getD NOT_FOUND = NOT_FOUND := by
    rcases hans with h | ⟨a, ha, hr⟩
    · rw [h]; rfl
    · rw [ha]
      simp [hr]
  rw [handle_request_decoded_some rr hostname qtype_name tx_id resp hmiss,
    if_neg hc1, if_neg (by simp [hres])]
  exact ⟨rfl, rfl⟩

/-- C10 witness: a correlated reply with no answer object leaves the
empty cache unchanged and still displays. -/
theorem C10_missing_answer_negative_witness :
    (handle_request RRTable.init "d.com" "A" 3
        (RecvOutcome.decoded (some
          { rid := some 3, flag := some RESP_FLAG, answer := none }))).table =
      RRTable.init :=
  (C10_missing_answer_negative RRTable.init "d.com" "A" 3
    { rid := some 3, flag := some RESP_FLAG, answer := none }
    rfl rfl rfl (Or.inl rfl)).1

/-- Positional numbering after a decay tick: the record stored at
position `i` carries number `i`. -/
theorem decay_tick_get?_number (t : RRTable) (i : Nat) (rec : Record)
    (h : (t.decay_tick).records.get? i = some rec) : rec.record_number = i := by
  rw [(decay_tick_pipeline t).1, renumberFrom_get?] at h
  rcases Option.map_eq_some'.mp h with ⟨s, _, hs2⟩
  rw [← hs2]
  simp

/-- C5 counterexample: a dynamic record inserted with ttl 1 is removed in
the very tick that takes its ttl to 0, not on the following tick; after
one tick the table is already empty, so no record with ttl 0 is ever
observable. -/
theorem C5_counterexample :
    (RRTable.decay_tick
      { records := [{ record_number := 0, name := "a.com", rtype := "A",
                      result := "1.2.3.4", ttl := some 1, static := 0 }],
        record_number := 1 }).records = [] := by
  decide

/-- C5 (amended): per decay tick, an untouched dynamic record with
present ttl n > 1 survives, up to renumbering, with ttl exactly n - 1;
after a tick no dynamic record carries a ttl ≤ 0 (a record whose ttl
reaches 0 is removed within that same tick, and a record already at
ttl ≤ 0 is removed by the next tick); and the survivors' record
numbers compact to dense 0-based positions. -/
theorem C5_ttl_monotonic_tick (t : RRTable) :
    (∀ rec ∈ t.records, rec.static = 0 → ∀ n : Int, rec.ttl = some n → 1 < n →
      recCore { rec with ttl := some (n - 1) } ∈
        (t.decay_tick).records.map recCore) ∧
    (∀ rec ∈ (t.decay_tick).records, rec.static = 0 → ∀ n : Int,
      rec.ttl = some n → 0 < n) ∧
    ∀ i rec, (t.decay_tick).records.get? i = some rec → rec.record_number = i := by
  refine ⟨?_, ?_, fun i rec h => decay_tick_get?_number t i rec h⟩
  · intro rec hmem hs n httl hn
    rw [(decay_tick_pipeline t).1, map_recCore_renumberFrom]
    have hdec : specTickDecrement rec = { rec with ttl := some (n - 1) } := by
      simp [specTickDecrement, hs, httl, show (0 : Int) < n by omega]
    refine List.mem_map.mpr ⟨specTickDecrement rec, List.mem_filter.mpr
      ⟨List.mem_map_of_mem _ hmem, ?_⟩, by rw [hdec]⟩
    simp [specShouldRemove, hdec, hs, show ¬(n - 1 ≤ 0) by omega]
  · intro rec hmem hs n httl
    rw [(decay_tick_pipeline t).1] at hmem
    rcases mem_renumberFrom 0 _ rec hmem with ⟨s, hsmem, hcore⟩
    have hst : rec.static = s.static := congrArg RecordCore.static hcore
    have htt : rec.ttl = s.ttl := congrArg RecordCore.ttl hcore
    have hkeep := (List.mem_filter.mp hsmem).2
    have hs0 : s.static = 0 := by rw [← hst]; exact hs
    have ht0 : s.ttl = some n := by rw [← htt]; exact httl
    simp [specShouldRemove, hs0, ht0] at hkeep
    omega

/-- C5 witness: in a one-record table with ttl 3, the tick keeps the
record with ttl 2. -/
theorem C5_ttl_monotonic_tick_witness :
    recCore { record_number := 0, name := "a.com", rtype := "A",
              result := "1.2.3.4", ttl := some 2, static := 0 } ∈
      (RRTable.decay_tick
        { records := [{ record_number := 0, name := "a.com", rtype := "A",
                        result := "1.2.3.4", ttl := some 3, static := 0 }],
          record_number := 1 }).records.map recCore := by
  simpa using
    (C5_ttl_monotonic_tick
        { records := [{ record_number := 0, name := "a.com", rtype := "A",
                        result := "1.2.3.4", ttl := some 3, static := 0 }],
          record_number := 1 }).1
      { record_number := 0, name := "a.com", rtype := "A",
        result := "1.2.3.4", ttl := some 3, static := 0 }
      (by simp) rfl 3 rfl (by norm_num)

/-- C6 counterexample: a resolution attempt whose receive times out
returns without presenting the cache snapshot, refuting the claim that
every attempt ends by displaying the table. -/
theorem C6_counterexample :
    (handle_request RRTable.init "c.com" "A" 1 RecvOutcome.recvError).displayed
      = false := rfl

/-- C6 (amended): a resolution attempt presents the cache snapshot
exactly on a cache hit and on a correctly correlated decoded reply
(negative or positive); it returns without displaying on a failed
receive, a failed decode, a non-dict reply, or an id/flag mismatch. -/
theorem C6_display_iff (rr : RRTable) (hostname qtype_name : String) (tx_id : Nat)
    (recv : RecvOutcome) :
    (handle_request rr hostname qtype_name tx_id recv).displayed = true ↔
      ((rr.get_record hostname qtype_name).isSome = true ∨
        ∃ resp, recv = RecvOutcome.decoded (some resp) ∧
          resp.rid = some tx_id ∧ resp.flag = some RESP_FLAG) := by
  by_cases hh : (rr.get_record hostname qtype_name).isSome = true
  · simp [handle_request, hh]
  · have hmiss : rr.get_record hostname qtype_name = none := by
      cases h : rr.get_record hostname qtype_name <;> simp_all
    cases recv with
    | recvError => simp [handle_request, hh]
    | decodeError => simp [handle_request, hh]
    | decoded o =>
      cases o with
      | none => simp [handle_request, hh]
      | some resp =>
        rw [handle_request_decoded_some rr hostname qtype_name tx_id resp hmiss]
        by_cases hmm : resp.rid ≠ some tx_id ∨ resp.flag ≠ some RESP_FLAG
        · rw [if_pos hmm]
          simp only [Bool.false_eq_true, false_iff]
          rintro (hcon | ⟨resp2, heq, hid2, hfl2⟩)
          · exact hh hcon
          · simp only [RecvOutcome.decoded.injEq, Option.some.injEq] at heq
            subst heq
            rcases hmm with h | h
            · exact h hid2
            · exact h hfl2
        · rw [if_neg hmm]
          push_neg at hmm
          by_cases hres :
              (resp.answer.getD emptyAnswer).result.getD NOT_FOUND ≠ NOT_FOUND
          · rw [if_pos hres]
            simp only [true_iff]
            exact Or.inr ⟨resp, rfl, hmm.1, hmm.2⟩
          · rw [if_neg hres]
            simp only [true_iff]
            exact Or.inr ⟨resp, rfl, hmm.1, hmm.2⟩

/-- C6 witness: a correlated negative reply on an empty cache still
displays the table. -/
theorem C6_display_iff_witness :
    (handle_request RRTable.init "d.com" "A" 3
        (RecvOutcome.decoded (some
          { rid := some 3, flag := some RESP_FLAG, answer := none }))).displayed
      = true :=
  (C6_display_iff RRTable.init "d.com" "A" 3
      (RecvOutcome.decoded (some
        { rid := some 3, flag := some RESP_FLAG, answer := none }))).mpr
    (Or.inr ⟨{ rid := some 3, flag := some RESP_FLAG, answer := none },
      rfl, rfl, rfl⟩)

/-- C7: a malformed dynamic record (static = 0, absent ttl) is neither
decremented nor removed by a decay tick: the decrement pass leaves it
unchanged, the removal test does not select it, and it survives the tick
up to renumbering. The tick itself is a total function of the table
state, so it never raises to its caller. -/
theorem C7_absent_ttl_untouched (t : RRTable) (rec : Record)
    (hmem : rec ∈ t.records) (_hs : rec.static = 0) (ht : rec.ttl = none) :
    decTtlRec rec = rec ∧ isExpiredDyn rec = false ∧
      recCore rec ∈ (t.decay_tick).records.map recCore := by
  have hdec : specTickDecrement rec = rec := by simp [specTickDecrement, ht]
  refine ⟨by simp [decTtlRec, ht], by simp [isExpiredDyn, ht], ?_⟩
  rw [(decay_tick_pipeline t).1, map_recCore_renumberFrom]
  refine List.mem_map.mpr ⟨specTickDecrement rec, List.mem_filter.mpr
    ⟨List.mem_map_of_mem _ hmem, ?_⟩, by rw [hdec]⟩
  simp [specShouldRemove, hdec, ht]

/-- C7 witness: a concrete absent-ttl dynamic record is untouched. -/
theorem C7_absent_ttl_untouched_witness :
    decTtlRec { record_number := 0, name := "x.com", rtype := "A",
                result := "r", ttl := none, static := 0 } =
      { record_number := 0, name := "x.com", rtype := "A",
        result := "r", ttl := none, static := 0 } :=
  (C7_absent_ttl_untouched
      { records := [{ record_number := 0, name := "x.com", rtype := "A",
                      result := "r", ttl := none, static := 0 }],
        record_number := 1 }
      { record_number := 0, name := "x.com", rtype := "A",
        result := "r", ttl := none, static := 0 }
      (by simp) rfl rfl).1

/-- C8: the density invariant (counter equals the record count, and the
record at position i carries number i) holds for the initial table and
is preserved by add_record and by every decay tick; get_record and
display_table read the state without modifying it. -/
theorem C8_invariant_preserved :
    tableInv RRTable.init ∧
    (∀ t : RRTable, tableInv t → ∀ (name rtype result : String) (ttl : Int)
      (static : Nat), tableInv (t.add_record name rtype result ttl static)) ∧
    ∀ t : RRTable, tableInv (t.decay_tick) := by
  refine ⟨⟨rfl, ?_⟩, ?_, ?_⟩
  · intro i rec h
    simp [RRTable.init] at h
  · rintro t ⟨hc, hd⟩ name rtype result ttl static
    constructor
    · simp [RRTable.add_record, hc]
    · intro i rec h
      simp only [RRTable.add_record] at h
      rcases lt_trichotomy i t.records.length with hi | hi | hi
      · rw [List.get?_append hi] at h
        exact hd i rec h
      · rw [List.get?_append_right (Nat.le_of_eq hi.symm)] at h
        subst hi
        simp only [Nat.sub_self, List.get?_cons_zero, Option.some.injEq] at h
        rw [← h, hc]
      · exfalso
        rcases List.get?_eq_some.mp h with ⟨hlt, _⟩
        rw [List.length_append, List.length_singleton] at hlt
        omega
  · intro t
    refine ⟨?_, fun i rec h => decay_tick_get?_number t i rec h⟩
    rw [(decay_tick_pipeline t).1, (decay_tick_pipeline t).2, renumberFrom_length]

/-- C8 witness: the invariant holds after inserting into the fresh table. -/
theorem C8_invariant_preserved_witness :
    tableInv (RRTable.add_record RRTable.init "a.com" "A" "1.2.3.4" 2 0) :=
  C8_invariant_preserved.2.1 RRTable.init C8_invariant_preserved.1
    "a.com" "A" "1.2.3.4" 2 0

/-- C9: the type registry maps A, AAAA, CNAME, NS to the distinct codes
8, 4, 2, 1, the code-to-name direction inverts it on exactly those
codes, and both directions return none outside the registry. -/
theorem C9_type_registry :
    (get_type_code "A" = some 8 ∧ get_type_code "AAAA" = some 4 ∧
      get_type_code "CNAME" = some 2 ∧ get_type_code "NS" = some 1) ∧
    (get_type_name 8 = some "A" ∧ get_type_name 4 = some "AAAA" ∧
      get_type_name 2 = some "CNAME" ∧ get_type_name 1 = some "NS") ∧
    (∀ s : String, s ≠ "A" → s ≠ "AAAA" → s ≠ "CNAME" → s ≠ "NS" →
      get_type_code s = none) ∧
    ∀ c : Nat, c ≠ 8 → c ≠ 4 → c ≠ 2 → c ≠ 1 → get_type_name c = none := by
  refine ⟨⟨rfl, rfl, rfl, rfl⟩, ⟨rfl, rfl, rfl, rfl⟩, ?_, ?_⟩
  · intro s h1 h2 h3 h4
    have e1 : (("A" : String) == s) = false := beq_eq_false_iff_ne.mpr (Ne.symm h1)
    have e2 : (("AAAA" : String) == s) = false := beq_eq_false_iff_ne.mpr (Ne.symm h2)
    have e3 : (("CNAME" : String) == s) = false := beq_eq_false_iff_ne.mpr (Ne.symm h3)
    have e4 : (("NS" : String) == s) = false := beq_eq_false_iff_ne.mpr (Ne.symm h4)
    simp [get_type_code, name_to_code, List.find?, e1, e2, e3, e4]
  · intro c h1 h2 h3 h4
    have e1 : ((8 : Nat) == c) = false := beq_eq_false_iff_ne.mpr (Ne.symm h1)
    have e2 : ((4 : Nat) == c) = false := beq_eq_false_iff_ne.mpr (Ne.symm h2)
    have e3 : ((2 : Nat) == c) = false := beq_eq_false_iff_ne.mpr (Ne.symm h3)
    have e4 : ((1 : Nat) == c) = false := beq_eq_false_iff_ne.mpr (Ne.symm h4)
    simp [get_type_name, code_to_name, name_to_code, List.find?, e1, e2, e3, e4]

/-- C9 witness: an unknown name and an unassigned code both map to none. -/
theorem C9_type_registry_witness :
    get_type_code "MX" = none ∧ get_type_name 3 = none :=
  ⟨C9_type_registry.2.2.1 "MX" (by decide) (by decide) (by decide) (by decide),
   C9_type_registry.2.2.2 3 (by decide) (by decide) (by decide) (by decide)⟩

/-- C2 witness: lookup in the empty table returns none. -/
theorem C2_get_record_first_valid_witness :
    RRTable.init.get_record "a.com" "A" = none :=
  (C2_get_record_first_valid RRTable.init "a.com" "A").2.mpr (by simp [RRTable.init])

end DnsSim
